import Mathlib

/-!
Verification development for the Cypress test-report generation pipeline:
the scenario-file parser, the result correlator, the statistics engine and
the screenshot matcher.  Definitions are shallow embeddings of the
TypeScript sources `cucumber-report-generator.ts`, `report-statistics.ts`
and `report-html-generator.ts`; strings are modelled as `List Char` and
JavaScript numbers as `ℚ` (durations never hit float rounding in the
claims below, which concern exact divisions and integral values).
-/

/-- Strings are modelled as lists of characters. -/
abbrev Str := List Char

/-- Coerce a Lean string literal into the model's string type. -/
def str (x : String) : Str := x.data

/-- JavaScript whitespace (the ASCII whitespace characters recognised by
`String.prototype.trim` and the regex class `\s`). -/
def isJsWs (c : Char) : Bool :=
  c = ' ' || c = '\t' || c = '\n' || c = '\r' || c.toNat = 11 || c.toNat = 12

/-- `s.trim()`: drop whitespace from both ends. -/
def jsTrim (x : Str) : Str :=
  ((x.dropWhile isJsWs).reverse.dropWhile isJsWs).reverse

/-- `hay.includes(needle)`: substring containment, as in JS `String.includes`. -/
def containsSub (hay needle : Str) : Bool :=
  if needle.isPrefixOf hay then true
  else
    match hay with
    | [] => false
    | _ :: t => containsSub t needle

/-- `content.split(sep)` for a single-character separator, as in JS
`String.split`: always returns at least one (possibly empty) piece. -/
def splitOnChar (sep : Char) : Str → List Str
  | [] => [[]]
  | c :: rest =>
    match splitOnChar sep rest with
    | [] => [[]]
    | h :: t => if c = sep then [] :: h :: t else (c :: h) :: t

/-- `content.split('\n')`, the line splitting used by `parseFeatureFile`. -/
def splitLines (content : Str) : List Str := splitOnChar '\n' content

-- =============================================================================
-- TYPE DEFINITIONS (cucumber-report-generator.ts / report-types.ts)
-- The report-types interfaces consumed by the statistics engine have the same
-- shape as the generator's Cucumber interfaces (the statistics engine reads the
-- JSON the generator wrote), so one family of structures serves both.
-- =============================================================================

/-- `CucumberStep.result`: status, optional duration (ns), optional error. -/
structure StepResult where
  status : Str
  duration : Option ℚ
  error_message : Option Str
deriving DecidableEq, Repr

structure CucumberStep where
  keyword : Str
  name : Str
  result : StepResult
deriving DecidableEq, Repr

structure CucumberScenario where
  keyword : Str
  name : Str
  steps : Option (List CucumberStep)
deriving DecidableEq, Repr

structure CucumberFeature where
  keyword : Str
  name : Str
  uri : Option Str
  elements : Option (List CucumberScenario)
deriving DecidableEq, Repr

structure CypressSpec where
  name : Str
deriving DecidableEq, Repr

structure CypressTest where
  title : Option (List Str)
  state : Option Str
  duration : Option ℚ
  displayError : Option Str
deriving DecidableEq, Repr

structure CypressRun where
  spec : Option CypressSpec
  tests : Option (List CypressTest)
deriving DecidableEq, Repr

structure CypressResults where
  runs : Option (List CypressRun)
deriving DecidableEq, Repr

-- =============================================================================
-- FEATURE FILE PARSING (parseFeatureFile)
-- =============================================================================

/-- The step keywords, in the order they appear in the alternation
`(Given|When|Then|And|But)`. -/
def stepKeywords : List Str :=
  [str "Given", str "When", str "Then", str "And", str "But"]

/-- Does `t` start with keyword `kw` followed by a whitespace character
(the `^\s*(Kw)\s+` part of the step regex, on an already-trimmed line)? -/
def startsKw (kw t : Str) : Bool :=
  kw.isPrefixOf t &&
    match t.drop kw.length with
    | c :: _ => isJsWs c
    | [] => false

/-- `trimmedLine.match(/^\s*(Given|When|Then|And|But)\s+(.+)$/)`: the matched
keyword and the (nonempty) remainder after the separating whitespace.
The input is a trimmed line from `split('\n')`, so it contains no newline
and the leading `\s*` matches the empty string. -/
def matchStepLine (t : Str) : Option (Str × Str) :=
  match stepKeywords.find? (fun kw => startsKw kw t) with
  | none => none
  | some kw =>
    let rest := (t.drop kw.length).dropWhile isJsWs
    if rest.isEmpty then none else some (kw, rest)

/-- Default result given to every parsed step: passed, 1 s in nanoseconds. -/
def defaultStepResult : StepResult :=
  { status := str "passed", duration := some 1000000000, error_message := none }

/-- Loop state of `parseFeatureFile`'s `for (const line of lines)` loop. -/
structure ParseState where
  name : Str
  current : Option CucumberScenario
  background : List CucumberStep
  scenarios : List CucumberScenario
deriving DecidableEq, Repr

/-- One iteration of the `parseFeatureFile` line loop.  (Since the line was
already trimmed, `replace('Feature:','')` removes exactly the 8-character
prefix; likewise `Scenario:` is 9 characters.) -/
def processLine (st : ParseState) (line : Str) : ParseState :=
  let t := jsTrim line
  if (str "Feature:").isPrefixOf t then
    { st with name := jsTrim (t.drop 8) }
  else if (str "Background:").isPrefixOf t then
    { st with background := [] }
  else if (str "Scenario:").isPrefixOf t then
    { st with
      scenarios := st.scenarios ++ st.current.toList
      current := some
        { keyword := str "Scenario"
          name := jsTrim (t.drop 9)
          steps := some st.background } }
  else
    match matchStepLine t with
    | some (kw, nm) =>
      let step : CucumberStep := { keyword := kw, name := nm, result := defaultStepResult }
      match st.current with
      | some c => { st with current := some { c with steps := some (c.steps.getD [] ++ [step]) } }
      | none => { st with background := st.background ++ [step] }
    | none => st

/-- `parseFeatureFile(content, filePath)`: fold the line loop, append the last
open scenario, and return the feature unless its name stayed empty. -/
def parseFeatureFile (content filePath : Str) : Option CucumberFeature :=
  let st := (splitLines content).foldl processLine
    { name := [], current := none, background := [], scenarios := [] }
  let scenarios := st.scenarios ++ st.current.toList
  if st.name.isEmpty then none
  else some { keyword := str "Feature", name := st.name, uri := some filePath,
              elements := some scenarios }

-- =============================================================================
-- TEST RESULTS PROCESSING (getTestResultsForFeature)
-- =============================================================================

/-- The per-scenario result record extracted from a Cypress run. -/
structure TestResult where
  status : Str
  duration : ℚ
  error_message : Option Str
deriving DecidableEq, Repr

/-- POSIX `path.basename`: the final path component. -/
def basename (p : Str) : Str := (splitOnChar '/' p).getLastD p

/-- `test.title?.[test.title.length - 1] || ''`: last title segment, or the
empty string when the title is absent or empty. -/
def lastTitle (t : Option (List Str)) : Str :=
  match t with
  | none => []
  | some l => l.getLastD []

/-- The `let status = 'failed'; if (state === 'passed') ... else if
(state === 'pending') ...` classification. -/
def statusOfState (state : Option Str) : Str :=
  if state = some (str "passed") then str "passed"
  else if state = some (str "pending") then str "skipped"
  else str "failed"

/-- The `TestResult` record built for one Cypress test:
status from the state, duration `(test.duration || 0) * 1000000` (ms → ns),
error message from `displayError`. -/
def resultOfTest (test : CypressTest) : TestResult :=
  { status := statusOfState test.state
    duration := test.duration.getD 0 * 1000000
    error_message := test.displayError }

/-- `testResults[k] = v` on a JS object: overwrite in place, insert at end. -/
def setKey (m : List (Str × TestResult)) (k : Str) (v : TestResult) :
    List (Str × TestResult) :=
  match m with
  | [] => [(k, v)]
  | (k', v') :: rest => if k' = k then (k, v) :: rest else (k', v') :: setKey rest k v

/-- `testResults[k]` lookup. -/
def getKey (m : List (Str × TestResult)) (k : Str) : Option TestResult :=
  match m with
  | [] => none
  | (k', v) :: rest => if k' = k then some v else getKey rest k

/-- `getTestResultsForFeature`: for every run whose spec name contains the
feature file's basename, record each test's result under its scenario name
(the last title segment); later tests overwrite earlier ones. -/
def getTestResultsForFeature (results : CypressResults) (featureFile : Str) :
    List (Str × TestResult) :=
  (results.runs.getD []).foldl
    (fun acc run =>
      match run.spec with
      | some sp =>
        if containsSub sp.name (basename featureFile) then
          (run.tests.getD []).foldl
            (fun acc2 test => setKey acc2 (lastTitle test.title) (resultOfTest test))
            acc
        else acc
      | none => acc)
    []

-- =============================================================================
-- RESULT CORRELATION (mergeFeatureWithResults, detectFailedStepFromError)
-- =============================================================================

/-- `detectFailedStepFromError`: guess the failing step index from the error
text.  A missing or empty (falsy) message, or an unrecognised one, yields
`steps.length - 1` (which is `-1` on an empty step list, hence `Int`). -/
def detectFailedStepFromError (errorMessage : Option Str) (steps : List CucumberStep) :
    Int :=
  match errorMessage with
  | none => (steps.length : Int) - 1
  | some err =>
    if err.isEmpty then (steps.length : Int) - 1
    else if containsSub err (str "expected 1 to equal 2")
         || containsSub err (str "expect(1).to.eq(2)") then 1
    else if containsSub err (str "expected 1 to equal 0")
         || containsSub err (str "expect(1).to.equal(0)") then 1
    else (steps.length : Int) - 1

/-- The merge of one scenario with its matched result (the body of the
`feature.elements.forEach` in `mergeFeatureWithResults`).  A scenario with no
steps or no matching record is returned unchanged.  `if (errorMessage)` in the
failed branch assigns the error only when it is present and nonempty. -/
def mergeScenario (testResults : List (Str × TestResult)) (scenario : CucumberScenario) :
    CucumberScenario :=
  match scenario.steps, getKey testResults scenario.name with
  | some steps, some r =>
    let n : ℚ := steps.length
    let newSteps :=
      if r.status = str "passed" then
        steps.map fun st =>
          { st with result :=
              { st.result with status := str "passed", duration := some (r.duration / n) } }
      else if r.status = str "skipped" then
        steps.map fun st =>
          { st with result :=
              { st.result with status := str "skipped", duration := some 0 } }
      else
        let failedIdx := detectFailedStepFromError r.error_message steps
        steps.mapIdx fun i st =>
          if (i : Int) < failedIdx then
            { st with result :=
                { st.result with status := str "passed", duration := some (r.duration / n) } }
          else if (i : Int) = failedIdx then
            { st with result :=
                { st.result with
                    status := str "failed"
                    duration := some r.duration
                    error_message :=
                      match r.error_message with
                      | some e => if e.isEmpty then st.result.error_message else some e
                      | none => st.result.error_message } }
          else
            { st with result :=
                { st.result with status := str "skipped", duration := some 0 } }
    { scenario with steps := some newSteps }
  | _, _ => scenario

/-- `mergeFeatureWithResults`: merge every scenario of the feature. -/
def mergeFeatureWithResults (feature : CucumberFeature)
    (testResults : List (Str × TestResult)) : CucumberFeature :=
  { feature with elements := feature.elements.map (List.map (mergeScenario testResults)) }

-- =============================================================================
-- STATISTICS (report-statistics.ts)
-- =============================================================================

/-- `Math.round` on a (nonnegative-or-not) rational: round half toward +∞. -/
def jsRound (q : ℚ) : Int := ⌊q + 1/2⌋

/-- JS truthiness of the optional `duration` field: present and nonzero. -/
def truthyDur (d : Option ℚ) : Option ℚ :=
  match d with
  | some q => if q = 0 then none else some q
  | none => none

/-- The estimated step duration (in nanoseconds) used by `generateStatistics`
when the recorded duration is falsy: 2000 ms for failed steps, 500 ms else. -/
def stepEstimateNs (status : Str) : ℚ :=
  (if status = str "failed" then 2000 else 500) * 1000000

/-- The statistics record returned by `generateStatistics`. -/
structure TestStats where
  totalScenarios : Nat
  passedScenarios : Nat
  failedScenarios : Nat
  skippedScenarios : Nat
  totalSteps : Nat
  passedSteps : Nat
  failedSteps : Nat
  skippedSteps : Nat
  totalDuration : Int
  passRate : Int
deriving DecidableEq, Repr

/-- The mutable counters of `generateStatistics` before the final rounding. -/
structure StatsAcc where
  totalScenarios : Nat
  passedScenarios : Nat
  failedScenarios : Nat
  skippedScenarios : Nat
  totalSteps : Nat
  passedSteps : Nat
  failedSteps : Nat
  skippedSteps : Nat
  totalDuration : ℚ
deriving DecidableEq, Repr

/-- One iteration of the inner `scenario.steps?.forEach` of
`generateStatistics`: bump step counters and total duration, and track the
`scenarioHasFailed` / `scenarioHasSkipped` flags. -/
def statsStep (p : StatsAcc × Bool × Bool) (st : CucumberStep) : StatsAcc × Bool × Bool :=
  let (a, hf, hs) := p
  let add :=
    match truthyDur st.result.duration with
    | some d => d
    | none => stepEstimateNs st.result.status
  let a := { a with totalSteps := a.totalSteps + 1, totalDuration := a.totalDuration + add }
  if st.result.status = str "passed" then
    ({ a with passedSteps := a.passedSteps + 1 }, hf, hs)
  else if st.result.status = str "failed" then
    ({ a with failedSteps := a.failedSteps + 1 }, true, hs)
  else if st.result.status = str "skipped" then
    ({ a with skippedSteps := a.skippedSteps + 1 }, hf, true)
  else (a, hf, hs)

/-- One iteration of `feature.elements?.forEach` of `generateStatistics`:
failed dominates skipped dominates passed. -/
def statsScenario (a : StatsAcc) (sc : CucumberScenario) : StatsAcc :=
  let a := { a with totalScenarios := a.totalScenarios + 1 }
  let (a2, hf, hs) := (sc.steps.getD []).foldl statsStep (a, false, false)
  if hf then { a2 with failedScenarios := a2.failedScenarios + 1 }
  else if hs then { a2 with skippedScenarios := a2.skippedScenarios + 1 }
  else { a2 with passedScenarios := a2.passedScenarios + 1 }

def statsInit : StatsAcc :=
  { totalScenarios := 0, passedScenarios := 0, failedScenarios := 0
    skippedScenarios := 0, totalSteps := 0, passedSteps := 0, failedSteps := 0
    skippedSteps := 0, totalDuration := 0 }

/-- `ReportStatistics.generateStatistics`: fold the counters, then round the
total duration to ms and compute the pass rate (0 when there are no
scenarios). -/
def generateStatistics (features : List CucumberFeature) : TestStats :=
  let a := features.foldl (fun acc f => (f.elements.getD []).foldl statsScenario acc) statsInit
  { totalScenarios := a.totalScenarios
    passedScenarios := a.passedScenarios
    failedScenarios := a.failedScenarios
    skippedScenarios := a.skippedScenarios
    totalSteps := a.totalSteps
    passedSteps := a.passedSteps
    failedSteps := a.failedSteps
    skippedSteps := a.skippedSteps
    totalDuration := jsRound (a.totalDuration / 1000000)
    passRate :=
      if a.totalScenarios > 0 then
        jsRound ((a.passedScenarios : ℚ) / (a.totalScenarios : ℚ) * 100)
      else 0 }

/-- `ReportStatistics.getScenarioStatus`: failed dominates skipped dominates
passed. -/
def getScenarioStatus (sc : CucumberScenario) : Str :=
  let steps := sc.steps.getD []
  if steps.any (fun st => st.result.status = str "failed") then str "failed"
  else if steps.any (fun st => st.result.status = str "skipped") then str "skipped"
  else str "passed"

/-- The per-step millisecond contribution shared by `getFeatureStats` and
`getScenarioDuration` (the same code is duplicated in both in the source):
recorded duration converted ns → ms when truthy, else 2000 ms for a failed
step and 500 ms otherwise. -/
def stepDurationMs (st : CucumberStep) : ℚ :=
  match truthyDur st.result.duration with
  | some q => q / 1000000
  | none => if st.result.status = str "failed" then 2000 else 500

/-- `ReportStatistics.getScenarioDuration` (rounded milliseconds). -/
def getScenarioDuration (sc : CucumberScenario) : Int :=
  jsRound ((sc.steps.getD []).foldl (fun d st => d + stepDurationMs st) 0)

/-- The record returned by `ReportStatistics.getFeatureStats`. -/
structure FeatureStats where
  passed : Nat
  failed : Nat
  skipped : Nat
  duration : Int
deriving DecidableEq, Repr

/-- `ReportStatistics.getFeatureStats`: per-feature scenario counts by derived
status, plus the rounded millisecond duration folded over all steps. -/
def getFeatureStats (f : CucumberFeature) : FeatureStats :=
  let t := (f.elements.getD []).foldl
    (fun (t : Nat × Nat × Nat × ℚ) sc =>
      let (p, fl, sk, d) := t
      let s := getScenarioStatus sc
      let p := if s = str "passed" then p + 1 else p
      let fl := if s = str "failed" then fl + 1 else fl
      let sk := if s = str "skipped" then sk + 1 else sk
      (p, fl, sk, (sc.steps.getD []).foldl (fun d st => d + stepDurationMs st) d))
    (0, 0, 0, 0)
  { passed := t.1, failed := t.2.1, skipped := t.2.2.1, duration := jsRound t.2.2.2 }

-- =============================================================================
-- SCREENSHOT MATCHING (report-html-generator.ts: findScreenshots /
-- isScenarioFailed).  The two screenshot-name regexes are embedded with JS
-- semantics: leftmost match, lazy `(.+?)` groups (minimal growth), `.` not
-- matching a newline, and deterministic greedy `\s*` before a literal.
-- =============================================================================

/-- JS `\w` word character: ASCII letter, digit or underscore. -/
def isWordChar (c : Char) : Bool :=
  c.isAlpha || c.isDigit || c = '_'

/-- `s.replace(/\b\w/g, l => l.toUpperCase())`: uppercase every word
character that sits at a word boundary (start of string or after a
non-word character). -/
def upperWordStarts : Bool → Str → Str
  | _, [] => []
  | atBoundary, c :: rest =>
    if isWordChar c then
      (if atBoundary then c.toUpper else c) :: upperWordStarts false rest
    else c :: upperWordStarts true rest

/-- Does `\s*\(failed\)` match at the front of `s`?  (`\s*` is greedy but the
following literal starts with `(`, a non-whitespace character, so greedy
matching is deterministic.) -/
def matchesWsFailed (s : Str) : Bool :=
  (str "(failed)").isPrefixOf (s.dropWhile isJsWs)

/-- Lazy `(.+?)` immediately followed by `\s*\(failed\)`: grow the group one
character at a time (never across a newline, which `.` cannot match) until the
tail pattern matches; return the minimal group. -/
def findGroup2 : Str → Str → Option Str
  | [], _ => none
  | c :: rest, acc =>
    if c = '\n' then none
    else
      let acc := acc ++ [c]
      if matchesWsFailed rest then some acc else findGroup2 rest acc

/-- `\s*--\s*(.+?)\s*\(failed\)` matched at the front of `s`, returning the
second capture group. -/
def matchAfterDashes (s : Str) : Option Str :=
  let s1 := s.dropWhile isJsWs
  if (str "--").isPrefixOf s1 then
    findGroup2 ((s1.drop 2).dropWhile isJsWs) []
  else none

/-- Lazy first group `(.+?)` at a fixed start position: grow the group one
character at a time, testing the continuation `k` on the remainder; the first
success gives the (minimal) group-1 together with `k`'s payload. -/
def growGroup1 (k : Str → Option Str) : Str → Str → Option (Str × Str)
  | [], _ => none
  | c :: rest, acc =>
    if c = '\n' then none
    else
      let acc := acc ++ [c]
      match k rest with
      | some g2 => some (acc, g2)
      | none => growGroup1 k rest acc

/-- Leftmost regex search for `(.+?)<tail>`: try every start position from the
left, with lazy group-1 growth at each. -/
def regexSearch (k : Str → Option Str) : Str → Option (Str × Str)
  | [] => none
  | c :: t =>
    match growGroup1 k (c :: t) [] with
    | some r => some r
    | none => regexSearch k t

/-- The continuation for the cleaned-name regex `/(.+?)_failed/`. -/
def matchUnderscoreFailed (rest : Str) : Option Str :=
  if (str "_failed").isPrefixOf rest then some [] else none

/-- `s.replace(pat, '')` for a plain (non-regex) pattern: remove the first
occurrence only. -/
def removeFirst (s pat : Str) : Str :=
  if pat.isPrefixOf s then s.drop pat.length
  else
    match s with
    | [] => []
    | c :: t => c :: removeFirst t pat

/-- The test-name extraction from a screenshot filename in `findScreenshots`:
old Cypress format `(.+?)\s*--\s*(.+?)\s*\(failed\)` (second group), else the
cleaned format `/(.+?)_failed/` (first group, underscores to spaces, word
starts uppercased), else the filename without its first `.png` and with
underscores as spaces. -/
def extractTestName (file : Str) : Str :=
  match regexSearch matchAfterDashes file with
  | some (_, g2) => g2
  | none =>
    match regexSearch matchUnderscoreFailed file with
    | some (g1, _) =>
      upperWordStarts true (g1.map fun c => if c = '_' then ' ' else c)
    | none =>
      (removeFirst file (str ".png")).map fun c => if c = '_' then ' ' else c

/-- `Set.add`: append only if not already present (insertion order kept). -/
def insertSet (l : List Str) (x : Str) : List Str :=
  if x ∈ l then l else l ++ [x]

/-- The `failedScenarios` set built at the top of `findScreenshots`: names of
scenarios whose derived status is failed, in traversal order. -/
def failedScenarioNames (features : List CucumberFeature) : List Str :=
  features.foldl
    (fun acc f =>
      (f.elements.getD []).foldl
        (fun acc2 sc =>
          if getScenarioStatus sc = str "failed" then insertSet acc2 sc.name else acc2)
        acc)
    []

/-- `s.toLowerCase().trim()` (ASCII lowercasing). -/
def cleanName (s : Str) : Str := jsTrim (s.map Char.toLower)

/-- `ReportHtmlGenerator.isScenarioFailed`: exact set membership, else
case-insensitive trimmed substring containment in either direction against
some failed scenario. -/
def isScenarioFailed (testName : Str) (failedScenarios : List Str) : Bool :=
  if testName ∈ failedScenarios then true
  else
    let ct := cleanName testName
    failedScenarios.any fun f =>
      let cf := cleanName f
      containsSub cf ct || containsSub ct cf

/-- `screenshots[testName].push(relativePath)` with creation on first use:
append to the existing key's list, else add the key at the end. -/
def addScreenshot (m : List (Str × List Str)) (k v : Str) : List (Str × List Str) :=
  match m with
  | [] => [(k, [v])]
  | (k', vs) :: rest =>
    if k' = k then (k', vs ++ [v]) :: rest else (k', vs) :: addScreenshot rest k v

/-- The body of the `files.forEach` loop of `findScreenshots`: only `.png`
files are considered; the extracted test name must be nonempty (truthy) and
pass `isScenarioFailed` against the current run's failed set. -/
def screenshotStep (failed : List Str) (shots : List (Str × List Str)) (file : Str) :
    List (Str × List Str) :=
  if (str ".png").isSuffixOf file then
    let relativePath := str "screenshots/" ++ file.map fun c => if c = '\\' then '/' else c
    let testName := extractTestName file
    if !testName.isEmpty && isScenarioFailed testName failed then
      addScreenshot shots testName relativePath
    else shots
  else shots

/-- `ReportHtmlGenerator.findScreenshots`: the filesystem directory listing is
modelled as the list of file names `files` (the recursive `readdirSync`
result). -/
def findScreenshots (files : List Str) (cucumberData : List CucumberFeature) :
    List (Str × List Str) :=
  files.foldl (screenshotStep (failedScenarioNames cucumberData)) []

-- =============================================================================
-- JSON CONVERSION PIPELINE (convertCypressResultsToCucumberJson,
-- parseFeatureFilesAndCreateJson, createFallbackCucumberJson).
-- The filesystem is modelled as an association list from file path to file
-- contents; `glob.sync('cypress/e2e/features/**/<name>')` becomes "first file
-- whose basename is <name>"; `JSON.stringify(..., null, 2)` becomes a
-- canonical field-by-field serializer (indentation, irrelevant to the claims,
-- is omitted).
-- =============================================================================

/-- Canonical rendering of a rational JSON number. -/
def ratJson (q : ℚ) : Str :=
  if q.den = 1 then (toString q.num).data
  else (toString q.num).data ++ ['/'] ++ (toString q.den).data

/-- Escape a character for a JSON string literal. -/
def jsonEscapeChar (c : Char) : Str :=
  if c = '"' then str "\\\""
  else if c = '\\' then str "\\\\"
  else if c = '\n' then str "\\n"
  else if c = '\t' then str "\\t"
  else if c = '\r' then str "\\r"
  else [c]

/-- A JSON string literal. -/
def jsonStr (s : Str) : Str :=
  ['"'] ++ s.foldr (fun c acc => jsonEscapeChar c ++ acc) [] ++ ['"']

/-- Join serialized values with commas. -/
def joinComma (l : List Str) : Str := (l.intersperse (str ",")).flatten

/-- A JSON object from already-serialized present fields (`undefined` fields
are omitted, as `JSON.stringify` does). -/
def jsonObj (fields : List (Option (Str × Str))) : Str :=
  str "\x7b"
    ++ joinComma ((fields.filterMap id).map fun p => jsonStr p.1 ++ str ":" ++ p.2)
    ++ str "\x7d"

def jsonArr (l : List Str) : Str := str "[" ++ joinComma l ++ str "]"

def jsonStepResult (r : StepResult) : Str :=
  jsonObj
    [ some (str "status", jsonStr r.status)
    , r.duration.map fun d => (str "duration", ratJson d)
    , r.error_message.map fun e => (str "error_message", jsonStr e) ]

def jsonStep (st : CucumberStep) : Str :=
  jsonObj
    [ some (str "keyword", jsonStr st.keyword)
    , some (str "name", jsonStr st.name)
    , some (str "result", jsonStepResult st.result) ]

def jsonScenario (sc : CucumberScenario) : Str :=
  jsonObj
    [ some (str "keyword", jsonStr sc.keyword)
    , some (str "name", jsonStr sc.name)
    , sc.steps.map fun l => (str "steps", jsonArr (l.map jsonStep)) ]

def jsonFeature (f : CucumberFeature) : Str :=
  jsonObj
    [ some (str "keyword", jsonStr f.keyword)
    , some (str "name", jsonStr f.name)
    , f.uri.map fun u => (str "uri", jsonStr u)
    , f.elements.map fun l => (str "elements", jsonArr (l.map jsonScenario)) ]

/-- `JSON.stringify(features, ...)`. -/
def jsonFeatures (fs : List CucumberFeature) : Str := jsonArr (fs.map jsonFeature)

/-- Look up a file's contents in the modelled filesystem. -/
def lookupFile (files : List (Str × Str)) (name : Str) : Option Str :=
  match files with
  | [] => none
  | (n, c) :: rest => if n = name then some c else lookupFile rest name

/-- `glob.sync` for `**/<fileName>`: the first file whose basename matches. -/
def findFeatureFile (files : List (Str × Str)) (fileName : Str) : Option Str :=
  (files.find? fun p => basename p.1 = fileName).map fun p => p.1

/-- The `runFeatureFiles` set: feature files named by the runs' specs,
resolved through the modelled glob, first match, deduplicated. -/
def runFeatureFiles (results : CypressResults) (files : List (Str × Str)) : List Str :=
  (results.runs.getD []).foldl
    (fun acc run =>
      match run.spec with
      | some sp =>
        if (str ".feature").isSuffixOf sp.name then
          match findFeatureFile files (basename sp.name) with
          | some f => insertSet acc f
          | none => acc
        else acc
      | none => acc)
    []

/-- `parseFeatureFilesAndCreateJson`: parse every run feature file and merge
it with the matching test results; unreadable or unparseable files are
skipped. -/
def parseFeatureFilesAndCreateJson (results : CypressResults)
    (files : List (Str × Str)) : List CucumberFeature :=
  (runFeatureFiles results files).foldl
    (fun acc ff =>
      match lookupFile files ff with
      | none => acc
      | some content =>
        match parseFeatureFile content ff with
        | none => acc
        | some pf =>
          acc ++ [mergeFeatureWithResults pf (getTestResultsForFeature results ff)])
    []

/-- `path.basename(p, ext)`: basename with a matching extension removed. -/
def basenameExt (p ext : Str) : Str :=
  let b := basename p
  if ext.isSuffixOf b then b.take (b.length - ext.length) else b

/-- `x || default` on an optional string: the string when present and
nonempty, else the default. -/
def strOrElse (x : Option Str) (d : Str) : Str :=
  match x with
  | some s => if s.isEmpty then d else s
  | none => d

/-- `createFallbackCucumberJson`: one synthetic single-step scenario per test,
built directly from the Cypress results. -/
def createFallbackCucumberJson (results : CypressResults) : List CucumberFeature :=
  (results.runs.getD []).foldl
    (fun acc run =>
      match run.spec with
      | none => acc
      | some sp =>
        let specName := basenameExt sp.name (str ".feature")
        let featureName := specName ++ str ": Feature from " ++ sp.name
        let elements := (run.tests.getD []).map fun test =>
          { keyword := str "Scenario"
            name := strOrElse (some (lastTitle test.title)) (str "Unknown Scenario")
            steps := some
              [{ keyword := str "Given"
                 name := strOrElse (some (lastTitle test.title)) (str "Unknown Step")
                 result :=
                  { status :=
                      if test.state = some (str "passed") then str "passed" else str "failed"
                    duration := some (test.duration.getD 0 * 1000000)
                    error_message :=
                      match test.displayError with
                      | some e => if e.isEmpty then none else some e
                      | none => none } }] : CucumberScenario }
        acc ++ [{ keyword := str "Feature", name := featureName, uri := none
                  elements := some elements }])
    []

/-- The JSON text written by `convertCypressResultsToCucumberJson`: the parsed
and merged features when any exist, else the fallback features. -/
def convertCypressResultsToCucumberJson (results : CypressResults)
    (files : List (Str × Str)) : Str :=
  let cucumberFeatures := parseFeatureFilesAndCreateJson results files
  if cucumberFeatures.length > 0 then jsonFeatures cucumberFeatures
  else jsonFeatures (createFallbackCucumberJson results)

/-- The artifacts one report-generation run produces: the Cucumber JSON, the
statistics embedded in the HTML, and the HTML (whose header interpolates the
generation timestamp `new Date().toLocaleString()`, modelled as the `now`
parameter — the only ambient state the generator reads). -/
structure ReportArtifacts where
  json : Str
  stats : TestStats
  html : Str
deriving DecidableEq

/-- A run of the whole pipeline at wall-clock time `now`: JSON conversion
followed by HTML generation over the freshly parsed features. -/
def generateReportArtifacts (now : Str) (results : CypressResults)
    (files : List (Str × Str)) : ReportArtifacts :=
  let json := convertCypressResultsToCucumberJson results files
  let cucumberData := parseFeatureFilesAndCreateJson results files
  let stats := generateStatistics cucumberData
  { json := json
    stats := stats
    html := str "Generated: " ++ now ++ str " Pass Rate: " ++ (toString stats.passRate).data }

-- =============================================================================
-- CLAIM THEOREMS
-- =============================================================================

/-- Fixture for the end-to-end run: a feature file with a one-step Background
and a two-step Scenario. -/
def c1FeatureText : Str :=
  str "Feature: Demo\nBackground:\nGiven a base\nScenario: Two Steps\nWhen action\nThen outcome"

def c1Path : Str := str "cypress/e2e/features/demo.feature"

def c1Error : Str := str "AssertionError: expected 1 to equal 2"

/-- The Cypress run record: state failed, 3000 ms, equality-assertion error. -/
def c1Results : CypressResults :=
  { runs := some
      [ { spec := some { name := str "demo.feature" }
        , tests := some
            [ { title := some [str "Demo", str "Two Steps"]
              , state := some (str "failed")
              , duration := some 3000
              , displayError := some c1Error } ] } ] }

/-- The merged feature the pipeline is expected to produce. -/
def c1Merged : CucumberFeature :=
  { keyword := str "Feature", name := str "Demo", uri := some c1Path
    elements := some
      [ { keyword := str "Scenario", name := str "Two Steps"
          steps := some
            [ { keyword := str "Given", name := str "a base"
              , result := { status := str "passed", duration := some 1000000000
                          , error_message := none } }
            , { keyword := str "When", name := str "action"
              , result := { status := str "failed", duration := some 3000000000
                          , error_message := some c1Error } }
            , { keyword := str "Then", name := str "outcome"
              , result := { status := str "skipped", duration := some 0
                          , error_message := none } } ] } ] }

unseal Rat.mul Rat.inv Rat.add Rat.sub in
/-- C1: a feature with a 1-step Background and a 2-step Scenario, merged with
a failed RunRecord of duration 3000 ms whose error matches the
"expected 1 to equal 2" pattern, yields: step 0 (background) passed, step 1
failed with the full 3000 ms stored as 3000000000 ns and the error text,
step 2 skipped with duration 0; `generateStatistics` then reports
`failedScenarios = 1` and `passRate = 0`. -/
theorem spec_c1_end_to_end :
    (parseFeatureFile c1FeatureText c1Path).map
        (fun pf => mergeFeatureWithResults pf (getTestResultsForFeature c1Results c1Path))
      = some c1Merged
    ∧ (generateStatistics [c1Merged]).failedScenarios = 1
    ∧ (generateStatistics [c1Merged]).passRate = 0 := by
  refine ⟨?_, ?_, ?_⟩ <;> decide

/-- C6: the pass rate computed by `generateStatistics` equals
`round(passedScenarios / totalScenarios * 100)`, and it is 0 when
`totalScenarios = 0` (no division by zero occurs). -/
theorem spec_c6_pass_rate (features : List CucumberFeature) :
    ((generateStatistics features).totalScenarios = 0 →
      (generateStatistics features).passRate = 0)
    ∧ (0 < (generateStatistics features).totalScenarios →
        (generateStatistics features).passRate
          = jsRound (((generateStatistics features).passedScenarios : ℚ)
              / ((generateStatistics features).totalScenarios : ℚ) * 100)) := by
  simp only [generateStatistics]
  constructor
  · intro h
    rw [if_neg (by omega)]
  · intro h
    rw [if_pos h]

/-- A one-scenario feature used to witness the positive branch of C6. -/
def c6Demo : CucumberFeature :=
  { keyword := str "Feature", name := str "F", uri := none
    elements := some [{ keyword := str "Scenario", name := str "S", steps := some [] }] }

/-- Witness for C6: both branches applied at concrete inputs. -/
theorem spec_c6_pass_rate_witness :
    (generateStatistics []).passRate = 0
    ∧ (generateStatistics [c6Demo]).passRate
        = jsRound (((generateStatistics [c6Demo]).passedScenarios : ℚ)
            / ((generateStatistics [c6Demo]).totalScenarios : ℚ) * 100) :=
  ⟨(spec_c6_pass_rate []).1 (by decide),
   (spec_c6_pass_rate [c6Demo]).2 (by decide)⟩

/-- C8: the JSON-producing conversion is deterministic — two pipeline runs at
different wall-clock times over the same results object and the same
scenario-definition file contents produce the identical Cucumber JSON text,
and the statistics embedded in the report are likewise independent of the
ambient time (they are functions of the merged feature list alone). -/
theorem spec_c8_deterministic (t1 t2 : Str) (results : CypressResults)
    (files : List (Str × Str)) :
    (generateReportArtifacts t1 results files).json
      = (generateReportArtifacts t2 results files).json
    ∧ (generateReportArtifacts t1 results files).stats
      = (generateReportArtifacts t2 results files).stats :=
  ⟨rfl, rfl⟩

/-- C2: a scenario with K ≥ 1 steps matched to a RunRecord whose state is
"passed" gets every step marked passed with duration `D / K`, the even split
of the scenario duration `D` recorded for the test. -/
theorem spec_c2_even_split (t : CypressTest) (tr : List (Str × TestResult))
    (scenario : CucumberScenario) (steps : List CucumberStep)
    (hstate : t.state = some (str "passed"))
    (hsteps : scenario.steps = some steps)
    (hK : 1 ≤ steps.length)
    (hmatch : getKey tr scenario.name = some (resultOfTest t)) :
    ∀ st ∈ (mergeScenario tr scenario).steps.getD [],
      st.result.status = str "passed"
      ∧ st.result.duration = some ((resultOfTest t).duration / (steps.length : ℚ)) := by
  have hst : (resultOfTest t).status = str "passed" := by
    simp [resultOfTest, statusOfState, hstate]
  intro st hmem
  simp only [mergeScenario, hsteps, hmatch, hst, if_true, Option.getD_some] at hmem
  obtain ⟨x, hx, rfl⟩ := List.mem_map.mp hmem
  exact ⟨rfl, rfl⟩

def c2Test : CypressTest :=
  { title := some [str "S2"], state := some (str "passed")
  , duration := some 3000, displayError := none }

def c2Steps : List CucumberStep :=
  [ { keyword := str "Given", name := str "a", result := defaultStepResult }
  , { keyword := str "When", name := str "b", result := defaultStepResult } ]

def c2Scenario : CucumberScenario :=
  { keyword := str "Scenario", name := str "S2", steps := some c2Steps }

def c2Tr : List (Str × TestResult) := [(str "S2", resultOfTest c2Test)]

/-- The first step of `c2Scenario` after merging: passed, 3000 ms split 2
ways, i.e. 1500000000 ns. -/
def c2MergedHead : CucumberStep :=
  { keyword := str "Given", name := str "a"
    result := { status := str "passed", duration := some 1500000000
              , error_message := none } }

unseal Rat.mul Rat.inv Rat.add Rat.sub in
/-- Witness for C2 at a concrete two-step scenario and 3000 ms record. -/
theorem spec_c2_even_split_witness :
    c2MergedHead.result.status = str "passed"
    ∧ c2MergedHead.result.duration
        = some ((resultOfTest c2Test).duration / (c2Steps.length : ℚ)) :=
  spec_c2_even_split c2Test c2Tr c2Scenario c2Steps rfl rfl (by decide) (by decide)
    c2MergedHead (by decide)

/-- C3: a RunRecord whose state is "pending" is mapped to status "skipped",
and a matched scenario then has every step marked skipped with duration 0. -/
theorem spec_c3_pending_skipped (t : CypressTest) (tr : List (Str × TestResult))
    (scenario : CucumberScenario) (steps : List CucumberStep)
    (hstate : t.state = some (str "pending"))
    (hsteps : scenario.steps = some steps)
    (hmatch : getKey tr scenario.name = some (resultOfTest t)) :
    (resultOfTest t).status = str "skipped"
    ∧ ∀ st ∈ (mergeScenario tr scenario).steps.getD [],
        st.result.status = str "skipped" ∧ st.result.duration = some 0 := by
  have hst : (resultOfTest t).status = str "skipped" := by
    simp only [resultOfTest, statusOfState, hstate]
    decide
  refine ⟨hst, ?_⟩
  intro st hmem
  simp only [mergeScenario, hsteps, hmatch, hst, Option.getD_some, if_true] at hmem
  obtain ⟨x, hx, rfl⟩ := List.mem_map.mp hmem
  exact ⟨rfl, rfl⟩

def c3Test : CypressTest :=
  { title := some [str "S3"], state := some (str "pending")
  , duration := some 10, displayError := none }

def c3Scenario : CucumberScenario :=
  { keyword := str "Scenario", name := str "S3"
    steps := some [{ keyword := str "Given", name := str "g", result := defaultStepResult }] }

def c3Tr : List (Str × TestResult) := [(str "S3", resultOfTest c3Test)]

/-- The sole step of `c3Scenario` after merging: skipped with duration 0. -/
def c3MergedHead : CucumberStep :=
  { keyword := str "Given", name := str "g"
    result := { status := str "skipped", duration := some 0, error_message := none } }

unseal Rat.mul Rat.inv Rat.add Rat.sub in
/-- Witness for C3 at a concrete pending record and one-step scenario. -/
theorem spec_c3_pending_skipped_witness :
    (resultOfTest c3Test).status = str "skipped"
    ∧ (c3MergedHead.result.status = str "skipped"
        ∧ c3MergedHead.result.duration = some 0) :=
  ⟨(spec_c3_pending_skipped c3Test c3Tr c3Scenario _ rfl rfl (by decide)).1,
   (spec_c3_pending_skipped c3Test c3Tr c3Scenario _ rfl rfl (by decide)).2
     c3MergedHead (by decide)⟩

/-- Every step of the list carries the parser's default result. -/
def stepsDefault (l : List CucumberStep) : Prop :=
  ∀ st ∈ l, st.result = defaultStepResult

/-- Invariant of the parse loop: every step accumulated so far (background,
current scenario, finished scenarios) carries the default result. -/
def parseInv (ps : ParseState) : Prop :=
  stepsDefault ps.background
  ∧ (∀ c, ps.current = some c → stepsDefault (c.steps.getD []))
  ∧ (∀ sc ∈ ps.scenarios, stepsDefault (sc.steps.getD []))

theorem processLine_parseInv (ps : ParseState) (line : Str) (h : parseInv ps) :
    parseInv (processLine ps line) := by
  obtain ⟨hb, hc, hs⟩ := h
  simp only [processLine]
  split_ifs with h1 h2 h3
  · exact ⟨hb, hc, hs⟩
  · exact ⟨by intro st hst; simp at hst, hc, hs⟩
  · refine ⟨hb, ?_, ?_⟩
    · intro c hcur
      obtain rfl := (Option.some_inj.mp hcur).symm
      exact hb
    · intro sc hmem
      rcases List.mem_append.mp hmem with hm | hm
      · exact hs sc hm
      · cases hcu : ps.current with
        | none => rw [hcu] at hm; simp at hm
        | some c0 =>
          rw [hcu] at hm
          simp only [Option.toList_some, List.mem_singleton] at hm
          rw [hm]
          exact hc c0 hcu
  · rcases hml : matchStepLine (jsTrim line) with _ | ⟨kw, nm⟩
    · simp only [hml]
      exact ⟨hb, hc, hs⟩
    · simp only [hml]
      cases hcu : ps.current with
      | none =>
        refine ⟨?_, ?_, hs⟩
        · intro st hstm
          rcases List.mem_append.mp hstm with hm | hm
          · exact hb st hm
          · simp only [List.mem_singleton] at hm
            subst hm
            rfl
        · intro c hcur
          simp at hcur
      | some c0 =>
        simp only
        refine ⟨hb, ?_, hs⟩
        intro c2 hcur2
        obtain rfl := (Option.some_inj.mp hcur2).symm
        intro st hstm
        rcases List.mem_append.mp hstm with hm | hm
        · exact hc c0 hcu st hm
        · simp only [List.mem_singleton] at hm
          subst hm
          rfl

theorem foldl_parseInv (lines : List Str) (ps : ParseState) (h : parseInv ps) :
    parseInv (lines.foldl processLine ps) := by
  induction lines generalizing ps with
  | nil => exact h
  | cons l ls ih => exact ih _ (processLine_parseInv ps l h)

/-- All steps of all scenarios of a parsed feature carry the default result. -/
theorem parse_steps_default (content path : Str) (f : CucumberFeature)
    (hp : parseFeatureFile content path = some f) :
    ∀ sc ∈ f.elements.getD [], stepsDefault (sc.steps.getD []) := by
  have hinv : parseInv ((splitLines content).foldl processLine
      { name := [], current := none, background := [], scenarios := [] }) := by
    refine foldl_parseInv _ _ ⟨?_, ?_, ?_⟩
    · intro st hst; simp at hst
    · intro c hcur; cases hcur
    · intro sc hmem; simp at hmem
  simp only [parseFeatureFile] at hp
  split at hp
  · cases hp
  · obtain rfl := (Option.some_inj.mp hp).symm
    intro sc hmem
    simp only [Option.getD_some] at hmem
    rcases List.mem_append.mp hmem with hm | hm
    · exact hinv.2.2 sc hm
    · cases hcu : ((splitLines content).foldl processLine
          { name := [], current := none, background := [], scenarios := [] }).current with
      | none => rw [hcu] at hm; simp at hm
      | some c0 =>
        rw [hcu] at hm
        simp only [Option.toList_some, List.mem_singleton] at hm
        rw [hm]
        exact hinv.2.1 c0 hcu

/-- C4: a parsed scenario whose name matches no run record is left entirely
unchanged by the merge, so each of its steps keeps the parser's default
status "passed" and the 1000000000 ns placeholder duration, and the
unexecuted scenario's derived status is "passed". -/
theorem spec_c4_unmatched_scenario (content path : Str) (f : CucumberFeature)
    (tr : List (Str × TestResult)) (scenario : CucumberScenario)
    (hp : parseFeatureFile content path = some f)
    (hmem : scenario ∈ f.elements.getD [])
    (hmiss : getKey tr scenario.name = none) :
    mergeScenario tr scenario = scenario
    ∧ scenario ∈ (mergeFeatureWithResults f tr).elements.getD []
    ∧ (∀ st ∈ scenario.steps.getD [],
        st.result.status = str "passed" ∧ st.result.duration = some 1000000000)
    ∧ getScenarioStatus scenario = str "passed" := by
  have hdef := parse_steps_default content path f hp scenario hmem
  have hms : mergeScenario tr scenario = scenario := by
    cases hss : scenario.steps with
    | none => simp [mergeScenario, hss, hmiss]
    | some steps => simp [mergeScenario, hss, hmiss]
  refine ⟨hms, ?_, ?_, ?_⟩
  · cases hfe : f.elements with
    | none => rw [hfe] at hmem; simp at hmem
    | some l =>
      rw [hfe] at hmem
      simp only [mergeFeatureWithResults, hfe, Option.map_some, Option.getD_some]
      exact List.mem_map.mpr ⟨scenario, by simpa using hmem, hms⟩
  · intro st hstm
    rw [hdef st hstm]
    exact ⟨rfl, rfl⟩
  · have hnost : ∀ (s : Str),
        (scenario.steps.getD []).any (fun st => st.result.status = s) = true →
          str "passed" = s := by
      intro s hany
      obtain ⟨st, hstm, hps⟩ := List.any_eq_true.mp hany
      have hd := hdef st hstm
      rw [hd] at hps
      exact of_decide_eq_true hps
    simp only [getScenarioStatus]
    rw [if_neg, if_neg]
    · intro hany
      have := hnost _ hany
      exact absurd this (by decide)
    · intro hany
      have := hnost _ hany
      exact absurd this (by decide)

def c4Content : Str := str "Feature: F\nScenario: Lonely\nGiven g\nWhen w"

def c4Feature : CucumberFeature :=
  { keyword := str "Feature", name := str "F", uri := some (str "f.feature")
    elements := some
      [ { keyword := str "Scenario", name := str "Lonely"
          steps := some
            [ { keyword := str "Given", name := str "g", result := defaultStepResult }
            , { keyword := str "When", name := str "w", result := defaultStepResult } ] } ] }

def c4Scenario : CucumberScenario :=
  { keyword := str "Scenario", name := str "Lonely"
    steps := some
      [ { keyword := str "Given", name := str "g", result := defaultStepResult }
      , { keyword := str "When", name := str "w", result := defaultStepResult } ] }

/-- Witness for C4: a parsed two-step scenario with an empty result record
set stays unchanged and reads as passing. -/
theorem spec_c4_unmatched_scenario_witness :
    mergeScenario [] c4Scenario = c4Scenario
    ∧ c4Scenario ∈ (mergeFeatureWithResults c4Feature []).elements.getD []
    ∧ (∀ st ∈ c4Scenario.steps.getD [],
        st.result.status = str "passed" ∧ st.result.duration = some 1000000000)
    ∧ getScenarioStatus c4Scenario = str "passed" :=
  spec_c4_unmatched_scenario c4Content (str "f.feature") c4Feature [] c4Scenario
    (by decide) (by decide) (by decide)

def c5CounterContent : Str := str "Feature: F\nScenario: S\nButter is good"

/-- Counterexample to C5 as stated: the scenario-block line "Butter is good"
has trimmed text starting with the keyword "But", so the claim predicts one
step (keyword "But"), yet the parser requires whitespace after the keyword
and produces a scenario with zero steps. -/
theorem spec_c5_counterexample :
    (str "But").isPrefixOf (jsTrim (str "Butter is good")) = true
    ∧ parseFeatureFile c5CounterContent (str "f.feature")
        = some { keyword := str "Feature", name := str "F", uri := some (str "f.feature")
                 elements := some
                   [{ keyword := str "Scenario", name := str "S", steps := some [] }] } :=
  ⟨by decide, by decide⟩

/-- The step a body line contributes, if any. -/
def stepOfLine (l : Str) : Option CucumberStep :=
  (matchStepLine (jsTrim l)).map fun p =>
    { keyword := p.1, name := p.2, result := defaultStepResult }

theorem not_isPrefixOf_of_head_ne {a b : Char} {p q t : Str} (hab : a ≠ b)
    (h : (a :: p).isPrefixOf t = true) : (b :: q).isPrefixOf t = false := by
  cases t with
  | nil => simp [List.isPrefixOf] at h
  | cons c t' =>
    simp only [List.isPrefixOf, Bool.and_eq_true, beq_iff_eq] at h
    obtain ⟨rfl, -⟩ := h
    have hbc : (b == a) = false := beq_eq_false_iff_ne.mpr fun hba => hab hba.symm
    simp [List.isPrefixOf, hbc]

theorem filterMap_length_countP {α β : Type} (f : α → Option β) (l : List α) :
    (l.filterMap f).length = l.countP (fun a => (f a).isSome) := by
  induction l with
  | nil => rfl
  | cons a l ih =>
    cases hfa : f a with
    | none => simp [List.filterMap_cons, hfa, List.countP_cons, ih]
    | some b => simp [List.filterMap_cons, hfa, List.countP_cons, ih]

/-- Folding the parse loop over scenario-body lines that are neither Feature,
Background nor Scenario headers appends exactly the step-matching lines to the
current scenario. -/
theorem foldl_body (fname sname : Str) (body : List Str) (acc : List CucumberStep)
    (hbody : ∀ l ∈ body,
      (str "Feature:").isPrefixOf (jsTrim l) = false
      ∧ (str "Background:").isPrefixOf (jsTrim l) = false
      ∧ (str "Scenario:").isPrefixOf (jsTrim l) = false) :
    body.foldl processLine
      { name := fname
        current := some { keyword := str "Scenario", name := sname, steps := some acc }
        background := [], scenarios := [] }
    = { name := fname
        current := some { keyword := str "Scenario", name := sname
                          steps := some (acc ++ body.filterMap stepOfLine) }
        background := [], scenarios := [] } := by
  induction body generalizing acc with
  | nil => simp
  | cons l ls ih =>
    obtain ⟨h1, h2, h3⟩ := hbody l (List.mem_cons_self l ls)
    have hbody' := fun l' hl' => hbody l' (List.mem_cons_of_mem l hl')
    simp only [List.foldl_cons]
    cases hml : matchStepLine (jsTrim l) with
    | none =>
      have hstep : processLine
          { name := fname
            current := some { keyword := str "Scenario", name := sname, steps := some acc }
            background := [], scenarios := [] } l
          = { name := fname
              current := some { keyword := str "Scenario", name := sname, steps := some acc }
              background := [], scenarios := [] } := by
        simp [processLine, h1, h2, h3, hml]
      rw [hstep, ih acc hbody']
      simp [stepOfLine, List.filterMap_cons, hml]
    | some p =>
      obtain ⟨kw, nm⟩ := p
      have hstep : processLine
          { name := fname
            current := some { keyword := str "Scenario", name := sname, steps := some acc }
            background := [], scenarios := [] } l
          = { name := fname
              current := some
                { keyword := str "Scenario", name := sname
                  steps := some (acc ++
                    [{ keyword := kw, name := nm, result := defaultStepResult }]) }
              background := [], scenarios := [] } := by
        simp [processLine, h1, h2, h3, hml]
      rw [hstep, ih _ hbody']
      simp [stepOfLine, List.filterMap_cons, hml, List.append_assoc]

/-- C5 (amended): for a file whose lines are a Feature header with nonempty
name, then a Scenario header, then body lines that are not themselves
Feature/Background/Scenario headers, the parsed feature has exactly one
scenario whose steps are, in source order, precisely the body lines whose
trimmed text starts with Given/When/Then/And/But followed by whitespace and a
nonempty remainder; each step carries the matched keyword and that remainder
as its name, and every other line is ignored, so the step count equals the
number of step-matching lines. -/
theorem spec_c5_parse_steps (content path featureLine scenarioLine : Str)
    (body : List Str)
    (hsplit : splitLines content = featureLine :: scenarioLine :: body)
    (hf : (str "Feature:").isPrefixOf (jsTrim featureLine) = true)
    (hfn : jsTrim ((jsTrim featureLine).drop 8) ≠ [])
    (hs : (str "Scenario:").isPrefixOf (jsTrim scenarioLine) = true)
    (hbody : ∀ l ∈ body,
      (str "Feature:").isPrefixOf (jsTrim l) = false
      ∧ (str "Background:").isPrefixOf (jsTrim l) = false
      ∧ (str "Scenario:").isPrefixOf (jsTrim l) = false) :
    parseFeatureFile content path
      = some { keyword := str "Feature"
               name := jsTrim ((jsTrim featureLine).drop 8)
               uri := some path
               elements := some
                 [{ keyword := str "Scenario"
                    name := jsTrim ((jsTrim scenarioLine).drop 9)
                    steps := some (body.filterMap stepOfLine) }] }
    ∧ (body.filterMap stepOfLine).length
        = body.countP (fun l => (matchStepLine (jsTrim l)).isSome) := by
  have hsF : (str "Feature:").isPrefixOf (jsTrim scenarioLine) = false :=
    not_isPrefixOf_of_head_ne (a := 'S') (p := str "cenario:") (by decide) hs
  have hsB : (str "Background:").isPrefixOf (jsTrim scenarioLine) = false :=
    not_isPrefixOf_of_head_ne (a := 'S') (p := str "cenario:") (by decide) hs
  have hstep1 : processLine
      { name := [], current := none, background := [], scenarios := [] } featureLine
      = { name := jsTrim ((jsTrim featureLine).drop 8), current := none
          background := [], scenarios := [] } := by
    simp [processLine, hf]
  have hstep2 : processLine
      { name := jsTrim ((jsTrim featureLine).drop 8), current := none
        background := [], scenarios := [] } scenarioLine
      = { name := jsTrim ((jsTrim featureLine).drop 8)
          current := some { keyword := str "Scenario"
                            name := jsTrim ((jsTrim scenarioLine).drop 9)
                            steps := some [] }
          background := [], scenarios := [] } := by
    simp [processLine, hsF, hsB, hs]
  have hne : (jsTrim ((jsTrim featureLine).drop 8)).isEmpty = false := by
    cases hfe : jsTrim ((jsTrim featureLine).drop 8) with
    | nil => exact absurd hfe hfn
    | cons c t => rfl
  constructor
  · simp only [parseFeatureFile, hsplit, List.foldl_cons, hstep1, hstep2,
      foldl_body _ _ body [] hbody, hne, List.nil_append, Bool.false_eq_true,
      if_false, Option.toList_some]
  · rw [filterMap_length_countP]
    congr 1
    funext l
    simp [stepOfLine]

def c5Content : Str := str "Feature: F\nScenario: S\nGiven g\nnote line\nWhen w"

/-- Witness for the amended C5 at a concrete file with two step lines and one
ignored line. -/
theorem spec_c5_parse_steps_witness :
    parseFeatureFile c5Content (str "w.feature")
      = some { keyword := str "Feature"
               name := jsTrim ((jsTrim (str "Feature: F")).drop 8)
               uri := some (str "w.feature")
               elements := some
                 [{ keyword := str "Scenario"
                    name := jsTrim ((jsTrim (str "Scenario: S")).drop 9)
                    steps := some
                      ([str "Given g", str "note line", str "When w"].filterMap
                        stepOfLine) }] }
    ∧ ([str "Given g", str "note line", str "When w"].filterMap stepOfLine).length
        = [str "Given g", str "note line", str "When w"].countP
            (fun l => (matchStepLine (jsTrim l)).isSome) :=
  spec_c5_parse_steps c5Content (str "w.feature") (str "Feature: F")
    (str "Scenario: S") [str "Given g", str "note line", str "When w"]
    (by decide) (by decide) (by decide) (by decide) (by decide)

theorem addScreenshot_keys {P : Str → Prop} (m : List (Str × List Str)) (k v : Str)
    (hm : ∀ e ∈ m, P e.1) (hk : P k) : ∀ e ∈ addScreenshot m k v, P e.1 := by
  induction m with
  | nil =>
    intro e he
    simp only [addScreenshot, List.mem_singleton] at he
    subst he
    exact hk
  | cons hd tl ih =>
    obtain ⟨k', vs⟩ := hd
    intro e he
    simp only [addScreenshot] at he
    split_ifs at he with hkk
    · rcases List.mem_cons.mp he with rfl | hmem
      · rw [show ((k', vs ++ [v]) : Str × List Str).1 = k' from rfl, hkk]
        exact hk
      · exact hm _ (List.mem_cons_of_mem _ hmem)
    · rcases List.mem_cons.mp he with rfl | hmem
      · exact hm (k', vs) (List.mem_cons_self _ _)
      · exact ih (fun e' he' => hm e' (List.mem_cons_of_mem _ he')) e hmem

theorem screenshotStep_keys (failed : List Str) (shots : List (Str × List Str))
    (file : Str) (h : ∀ e ∈ shots, isScenarioFailed e.1 failed = true) :
    ∀ e ∈ screenshotStep failed shots file, isScenarioFailed e.1 failed = true := by
  intro e he
  simp only [screenshotStep] at he
  split_ifs at he with h1 h2
  · have hk := h2
    rw [Bool.and_eq_true] at hk
    exact addScreenshot_keys (P := fun k => isScenarioFailed k failed = true)
      shots _ _ h hk.2 e he
  · exact h e he
  · exact h e he

theorem findScreenshots_keys (files : List Str) (data : List CucumberFeature) :
    ∀ e ∈ findScreenshots files data,
      isScenarioFailed e.1 (failedScenarioNames data) = true := by
  suffices hgen : ∀ shots,
      (∀ e ∈ shots, isScenarioFailed e.1 (failedScenarioNames data) = true) →
      ∀ e ∈ files.foldl (screenshotStep (failedScenarioNames data)) shots,
        isScenarioFailed e.1 (failedScenarioNames data) = true by
    exact hgen [] (by simp)
  induction files with
  | nil => exact fun shots h => h
  | cons f fs ih =>
    intro shots h
    exact ih _ (screenshotStep_keys _ shots f h)

/-- A run with one failed scenario "Login Test" and one passed scenario
"Other Test". -/
def c7Data : List CucumberFeature :=
  [ { keyword := str "Feature", name := str "Auth", uri := none
      elements := some
        [ { keyword := str "Scenario", name := str "Login Test"
            steps := some
              [ { keyword := str "Given", name := str "login"
                , result := { status := str "failed", duration := some 0
                            , error_message := none } } ] }
        , { keyword := str "Scenario", name := str "Other Test"
            steps := some
              [ { keyword := str "Given", name := str "other"
                , result := { status := str "passed", duration := some 0
                            , error_message := none } } ] } ] } ]

/-- C7: the screenshot file `login_test_failed.png` is associated with the
failed scenario "Login Test" (while `other_test_failed.png`, whose scenario
did not fail in this run, is excluded), and in general every association key
produced by `findScreenshots` passes `isScenarioFailed` against the set of
scenarios whose status is failed in the current run's feature data. -/
theorem spec_c7_screenshot_matching :
    findScreenshots [str "login_test_failed.png", str "other_test_failed.png"] c7Data
      = [(str "Login Test", [str "screenshots/login_test_failed.png"])]
    ∧ ∀ (files : List Str) (data : List CucumberFeature),
        ∀ e ∈ findScreenshots files data,
          isScenarioFailed e.1 (failedScenarioNames data) = true :=
  ⟨by decide, fun files data => findScreenshots_keys files data⟩

/-- Witness for C7's universal guard at the concrete screenshot list. -/
theorem spec_c7_screenshot_matching_witness :
    isScenarioFailed (str "Login Test") (failedScenarioNames c7Data) = true :=
  spec_c7_screenshot_matching.2 [str "login_test_failed.png"] c7Data
    (str "Login Test", [str "screenshots/login_test_failed.png"]) (by decide)

theorem containsSub_nil_false (c : Char) (p : Str) :
    containsSub [] (c :: p) = false := by
  simp [containsSub, List.isPrefixOf]

/-- C9: when the error text contains "expected 1 to equal 2" or
"expect(1).to.eq(2)", `detectFailedStepFromError` returns index 1 regardless
of the scenario's step count; hence a matched one-step scenario that failed
gets its sole step (index 0 < 1) marked passed with the full scenario
duration, no step is marked failed, and the scenario's derived status is
"passed". -/
theorem spec_c9_heuristic_index (err : Str) (tr : List (Str × TestResult))
    (scenario : CucumberScenario) (st0 : CucumberStep) (r : TestResult)
    (hpat : (containsSub err (str "expected 1 to equal 2")
             || containsSub err (str "expect(1).to.eq(2)")) = true) :
    (∀ steps : List CucumberStep, detectFailedStepFromError (some err) steps = 1)
    ∧ (scenario.steps = some [st0] → getKey tr scenario.name = some r →
       r.status ≠ str "passed" → r.status ≠ str "skipped" →
       r.error_message = some err →
       (mergeScenario tr scenario).steps.getD []
         = [{ st0 with result := { st0.result with
                status := str "passed", duration := some r.duration } }]
       ∧ getScenarioStatus (mergeScenario tr scenario) = str "passed") := by
  have hne : err.isEmpty = false := by
    cases err with
    | nil => exact absurd hpat (by decide)
    | cons c t => rfl
  have hdet : ∀ steps : List CucumberStep,
      detectFailedStepFromError (some err) steps = 1 := by
    intro steps
    simp only [detectFailedStepFromError, hne, Bool.false_eq_true, if_false]
    rw [if_pos hpat]
  refine ⟨hdet, ?_⟩
  intro hsteps hmatch hnp hns herr
  have hmerged : (mergeScenario tr scenario).steps.getD []
      = [{ st0 with result := { st0.result with
             status := str "passed", duration := some r.duration } }] := by
    simp only [mergeScenario, hsteps, hmatch, Option.getD_some]
    rw [if_neg hnp, if_neg hns, herr, hdet]
    simp
  refine ⟨hmerged, ?_⟩
  simp [getScenarioStatus, hmerged]
  decide

def c9Step : CucumberStep :=
  { keyword := str "Given", name := str "only", result := defaultStepResult }

def c9R : TestResult :=
  { status := str "failed", duration := 5000000000
  , error_message := some (str "expected 1 to equal 2") }

def c9Scenario : CucumberScenario :=
  { keyword := str "Scenario", name := str "Solo", steps := some [c9Step] }

def c9Tr : List (Str × TestResult) := [(str "Solo", c9R)]

/-- Witness for C9: the heuristic returns 1 on a three-step list, and a
one-step failed scenario comes out entirely passed. -/
theorem spec_c9_heuristic_index_witness :
    detectFailedStepFromError (some (str "expected 1 to equal 2"))
      [c9Step, c9Step, c9Step] = 1
    ∧ (mergeScenario c9Tr c9Scenario).steps.getD []
        = [{ c9Step with result := { c9Step.result with
               status := str "passed", duration := some c9R.duration } }]
    ∧ getScenarioStatus (mergeScenario c9Tr c9Scenario) = str "passed" := by
  obtain ⟨h1, h2⟩ := spec_c9_heuristic_index (str "expected 1 to equal 2")
    c9Tr c9Scenario c9Step c9R (by decide)
  obtain ⟨h3, h4⟩ := h2 rfl (by decide) (by decide) (by decide) rfl
  exact ⟨h1 _, h3, h4⟩

/-- Number of failed steps. -/
def failedCount (steps : List CucumberStep) : Nat :=
  steps.countP fun st => decide (st.result.status = str "failed")

/-- Number of steps that are not failed. -/
def otherCount (steps : List CucumberStep) : Nat :=
  steps.countP fun st => !decide (st.result.status = str "failed")

theorem foldl_stepDurationMs (steps : List CucumberStep)
    (h : ∀ st ∈ steps, truthyDur st.result.duration = none) (d0 : ℚ) :
    steps.foldl (fun d st => d + stepDurationMs st) d0
      = d0 + 2000 * (failedCount steps : ℚ) + 500 * (otherCount steps : ℚ) := by
  induction steps generalizing d0 with
  | nil => simp [failedCount, otherCount]
  | cons st rest ih =>
    have h0 := h st (List.mem_cons_self st rest)
    have hrest := fun st' h' => h st' (List.mem_cons_of_mem st h')
    simp only [List.foldl_cons]
    rw [ih hrest]
    have hsd : stepDurationMs st
        = if st.result.status = str "failed" then 2000 else 500 := by
      simp [stepDurationMs, h0]
    rw [hsd]
    by_cases hfst : st.result.status = str "failed"
    · simp only [failedCount, otherCount, List.countP_cons, hfst, if_pos]
      simp
      ring
    · simp only [failedCount, otherCount, List.countP_cons]
      simp [hfst]
      ring

theorem statsStep_totalDuration (p : StatsAcc × Bool × Bool) (st : CucumberStep)
    (h0 : truthyDur st.result.duration = none) :
    (statsStep p st).1.totalDuration
      = p.1.totalDuration + stepEstimateNs st.result.status := by
  obtain ⟨a, hf, hs⟩ := p
  simp only [statsStep, h0]
  split_ifs <;> rfl

theorem foldl_statsStep_totalDuration (steps : List CucumberStep)
    (h : ∀ st ∈ steps, truthyDur st.result.duration = none)
    (p : StatsAcc × Bool × Bool) :
    ((steps.foldl statsStep p).1).totalDuration
      = p.1.totalDuration
        + (2000 * (failedCount steps : ℚ) + 500 * (otherCount steps : ℚ)) * 1000000 := by
  induction steps generalizing p with
  | nil => simp [failedCount, otherCount]
  | cons st rest ih =>
    have h0 := h st (List.mem_cons_self st rest)
    have hrest := fun st' h' => h st' (List.mem_cons_of_mem st h')
    simp only [List.foldl_cons]
    rw [ih hrest (statsStep p st), statsStep_totalDuration p st h0]
    have hest : stepEstimateNs st.result.status
        = (if st.result.status = str "failed" then (2000 : ℚ) else 500) * 1000000 := rfl
    rw [hest]
    by_cases hfst : st.result.status = str "failed"
    · simp only [failedCount, otherCount, List.countP_cons]
      simp [hfst]
      ring
    · simp only [failedCount, otherCount, List.countP_cons]
      simp [hfst]
      ring

theorem jsRound_int (m : ℤ) : jsRound (m : ℚ) = m := by
  rw [jsRound, add_comm, Int.floor_add_int]
  norm_num

theorem statsScenario_totalDuration (a : StatsAcc) (sc : CucumberScenario)
    (h : ∀ st ∈ sc.steps.getD [], truthyDur st.result.duration = none) :
    (statsScenario a sc).totalDuration
      = a.totalDuration
        + (2000 * (failedCount (sc.steps.getD []) : ℚ)
           + 500 * (otherCount (sc.steps.getD []) : ℚ)) * 1000000 := by
  have hfd := foldl_statsStep_totalDuration (sc.steps.getD []) h
    ({ a with totalScenarios := a.totalScenarios + 1 }, false, false)
  simp only [statsScenario]
  rcases hp : (sc.steps.getD []).foldl statsStep
      ({ a with totalScenarios := a.totalScenarios + 1 }, false, false) with ⟨a2, hb, hs2⟩
  rw [hp] at hfd
  simp only [hp]
  split_ifs <;> exact hfd

theorem spec_c10_cast_eq (F O : Nat) :
    (0 : ℚ) + 2000 * (F : ℚ) + 500 * (O : ℚ)
      = ((2000 * (F : ℤ) + 500 * (O : ℤ) : ℤ) : ℚ) := by
  push_cast
  ring

/-- C10: whenever every step's recorded duration is absent or zero, all three
duration aggregators substitute 2000 ms per failed step and 500 ms per other
step — in particular skipped steps with correlator-assigned duration 0 still
contribute 500 ms each. -/
theorem spec_c10_estimated_durations (sc : CucumberScenario) (f : CucumberFeature)
    (hfe : f.elements = some [sc])
    (hdur : ∀ st ∈ sc.steps.getD [],
      st.result.duration = none ∨ st.result.duration = some 0) :
    getScenarioDuration sc
      = 2000 * (failedCount (sc.steps.getD []) : ℤ)
        + 500 * (otherCount (sc.steps.getD []) : ℤ)
    ∧ (getFeatureStats f).duration
      = 2000 * (failedCount (sc.steps.getD []) : ℤ)
        + 500 * (otherCount (sc.steps.getD []) : ℤ)
    ∧ (generateStatistics [f]).totalDuration
      = 2000 * (failedCount (sc.steps.getD []) : ℤ)
        + 500 * (otherCount (sc.steps.getD []) : ℤ) := by
  have ht : ∀ st ∈ sc.steps.getD [], truthyDur st.result.duration = none := by
    intro st hst
    rcases hdur st hst with h | h <;> simp [truthyDur, h]
  have hsum := foldl_stepDurationMs (sc.steps.getD []) ht 0
  refine ⟨?_, ?_, ?_⟩
  · rw [getScenarioDuration, hsum, spec_c10_cast_eq, jsRound_int]
  · simp only [getFeatureStats, hfe, Option.getD_some, List.foldl_cons, List.foldl_nil]
    rw [hsum, spec_c10_cast_eq, jsRound_int]
  · simp only [generateStatistics, List.foldl_cons, List.foldl_nil, hfe,
      Option.getD_some]
    rw [statsScenario_totalDuration statsInit sc ht]
    have hdiv : (statsInit.totalDuration
          + (2000 * (failedCount (sc.steps.getD []) : ℚ)
             + 500 * (otherCount (sc.steps.getD []) : ℚ)) * 1000000) / 1000000
        = ((2000 * (failedCount (sc.steps.getD []) : ℤ)
            + 500 * (otherCount (sc.steps.getD []) : ℤ) : ℤ) : ℚ) := by
      show ((0 : ℚ) + _ * 1000000) / 1000000 = _
      rw [zero_add, mul_div_cancel_right₀ _ (by norm_num : (1000000 : ℚ) ≠ 0)]
      push_cast
      ring
    rw [hdiv, jsRound_int]

def c10Step : CucumberStep :=
  { keyword := str "Given", name := str "s"
    result := { status := str "skipped", duration := some 0, error_message := none } }

def c10Sc : CucumberScenario :=
  { keyword := str "Scenario", name := str "Sk", steps := some [c10Step, c10Step, c10Step] }

def c10F : CucumberFeature :=
  { keyword := str "Feature", name := str "F10", uri := none, elements := some [c10Sc] }

/-- Witness for C10: three skipped steps with duration 0 contribute 500 ms
each in all three aggregators. -/
theorem spec_c10_estimated_durations_witness :
    getScenarioDuration c10Sc
      = 2000 * (failedCount (c10Sc.steps.getD []) : ℤ)
        + 500 * (otherCount (c10Sc.steps.getD []) : ℤ)
    ∧ (getFeatureStats c10F).duration
      = 2000 * (failedCount (c10Sc.steps.getD []) : ℤ)
        + 500 * (otherCount (c10Sc.steps.getD []) : ℤ)
    ∧ (generateStatistics [c10F]).totalDuration
      = 2000 * (failedCount (c10Sc.steps.getD []) : ℤ)
        + 500 * (otherCount (c10Sc.steps.getD []) : ℤ) :=
  spec_c10_estimated_durations c10Sc c10F rfl (by decide)
